import Mathlib

/-!
Verification development for the AI course-architect application.

Shallow embedding of the client-side document state model and its update
protocol: the data model comes from the repository's type declarations, the
operations from the React component handlers (OutlineView, ChapterView,
SectionView, App) and the JSON-repair/parse helper in the service layer.

Conventions used throughout:
- TypeScript interfaces become Lean structures; optional fields become
  `Option`; ordered arrays become `List`.
- JavaScript nullable values become `Option`; a `none` argument models a
  falsy value (null / undefined / empty string) at the corresponding guard,
  a `some` a truthy one.  Where a guard's JS truthiness differs from mere
  presence (an empty array is truthy; an empty string is falsy) the
  definition spells that out at the call site.
- React `useState` cells of one component become fields of an explicit
  state structure, and an async handler's post-`await` continuation becomes
  a pure function from the resolved external result and the pre-state to
  the post-state.
-/

namespace BookGen

/- ================================================================
   Data model, from the repository type declarations (types.ts).
   ================================================================ -/

/-- GeneratedImage: `\x7b id, base64, prompt \x7d`. -/
structure GeneratedImage where
  id : String
  base64 : String
  prompt : String
  deriving DecidableEq

/-- ExercisePart: `\x7b part, solution \x7d`. -/
structure ExercisePart where
  part : String
  solution : String
  deriving DecidableEq

/-- One entry of `ExerciseSet.exercises`: `\x7b problem, parts \x7d`. -/
structure Exercise where
  problem : String
  parts : List ExercisePart
  deriving DecidableEq

/-- ExerciseSet: `\x7b id, focusedIdea?, exercises \x7d`. -/
structure ExerciseSet where
  id : String
  focusedIdea : Option String
  exercises : List Exercise
  deriving DecidableEq

/-- The `type` discriminator of SolverSet.userInput: 'text' | 'image'. -/
inductive UserInputType where
  | text
  | image
  deriving DecidableEq

/-- SolverSet.userInput: `\x7b type, content \x7d`. -/
structure UserInput where
  type : UserInputType
  content : String
  deriving DecidableEq

/-- SolverSet: `\x7b id, userInput, solution \x7d`. -/
structure SolverSet where
  id : String
  userInput : UserInput
  solution : String
  deriving DecidableEq

/-- Section: `\x7b id, title, content, images \x7d`; `content` is
`string | null` in the source, hence `Option String`. -/
structure Section where
  id : String
  title : String
  content : Option String
  images : List GeneratedImage
  deriving DecidableEq

/-- Chapter: `\x7b id, title, sections, exerciseSets, solverSets \x7d`. -/
structure Chapter where
  id : String
  title : String
  sections : List Section
  exerciseSets : List ExerciseSet
  solverSets : List SolverSet
  deriving DecidableEq

/-- Outline (the Course root): `\x7b title, chapters, examSets \x7d`. -/
structure Outline where
  title : String
  chapters : List Chapter
  examSets : List ExerciseSet
  deriving DecidableEq

/-- The fixed language enumeration from the type declarations. -/
inductive Language where
  | English
  | Arabic
  | French
  | Spanish
  | German
  | Chinese
  deriving DecidableEq

/- ================================================================
   Targeted mutation protocol
   ================================================================ -/

/-- `updateChapter` from OutlineView: applies `setOutline` with
`prevOutline => prevOutline === null ? null :
\x7b ...prevOutline, chapters: prevOutline.chapters.map(c =>
c.id === chapterId ? updater(c) : c) \x7d`.  The `Option Outline` input
models the nullable `prevOutline` handed to the state setter. -/
def updateChapter (chapterId : String) (updater : Chapter → Chapter) :
    Option Outline → Option Outline
  | none => none
  | some prevOutline =>
    some { prevOutline with
      chapters := prevOutline.chapters.map fun c =>
        if c.id = chapterId then updater c else c }

/-- `updateSection` from ChapterView: composes with `updateChapter`,
mapping over the matched chapter's sections with
`s => s.id === sectionId ? updater(s) : s`. -/
def updateSection (chapterId sectionId : String)
    (updater : Section → Section) (prev : Option Outline) : Option Outline :=
  updateChapter chapterId
    (fun prevChapter =>
      { prevChapter with
        sections := prevChapter.sections.map fun s =>
          if s.id = sectionId then updater s else s })
    prev

/-- Exercise-set removal by id, the body of the `onDelete` handlers for
chapter exercise sets and for exam sets:
`sets.filter(s => s.id !== id)`. -/
def removeExerciseSetById (id : String) (sets : List ExerciseSet) :
    List ExerciseSet :=
  sets.filter fun s => s.id != id

/-- Solver-set removal by id, the body of the solver `onDelete` handler:
`p.solverSets.filter(s => s.id !== id)`. -/
def removeSolverSetById (id : String) (sets : List SolverSet) :
    List SolverSet :=
  sets.filter fun s => s.id != id


/- Concrete sample nodes used by witnesses. -/

def sampleSection1 : Section := ⟨"s1", "Limits", none, []⟩

def sampleSection2 : Section := ⟨"s2", "Continuity", some "text", []⟩

def sampleChapter1 : Chapter := ⟨"c1", "Chapter 1", [sampleSection1], [], []⟩

def sampleChapter2 : Chapter := ⟨"c2", "Chapter 2", [sampleSection2], [], []⟩

def sampleOutline : Outline := ⟨"Calculus", [sampleChapter1, sampleChapter2], []⟩

def sampleChapterUpdater : Chapter → Chapter :=
  fun ch => { ch with title := "Renamed" }

def sampleSectionUpdater : Section → Section :=
  fun s => { s with content := some "generated" }


/- Concrete sample sets used by witnesses and counterexamples. -/

def sampleSetA : ExerciseSet := ⟨"a", none, []⟩

def sampleSetB : ExerciseSet := ⟨"b", some "focus", []⟩

def sampleSetC : ExerciseSet := ⟨"c", none, []⟩

def sampleSolverP : SolverSet := ⟨"p", ⟨UserInputType.text, "2+2"⟩, "4"⟩

def sampleSolverQ : SolverSet := ⟨"q", ⟨UserInputType.image, "img"⟩, "sol"⟩


/- ================================================================
   Generation-task orchestrator: component state and the post-await
   continuations of the async handlers.
   ================================================================ -/

/-- The `useState` cells of ChapterView.  `isLoading` models the
string-keyed loading map; `modal` the nullable open-modal key; `solverImage`
the nullable data-URL buffer. -/
structure ChapterViewState where
  chapter : Chapter
  isLoading : String → Bool
  modal : Option String
  focusedIdea : String
  solverText : String
  solverImage : Option String

/-- One functional update of the loading map, as in
`setIsLoading(prev => (\x7b ...prev, [action]: v \x7d))`. -/
def setLoading (m : String → Bool) (k : String) (v : Bool) : String → Bool :=
  fun a => if a = k then v else m a

/-- The continuation of ChapterView's `handleAction` after
`await generator()` resolves.  `result = none` models a falsy result
(null / undefined / the empty string) at the `if (result)` guard, `some r`
a truthy one.  The code then unconditionally clears the busy flag, closes
the modal and resets the focused-idea text; the mutation
`updateChapter(chapter.id, prev => (\x7b ...prev, ...updater(result) \x7d))`
is modelled directly on the held chapter. -/
def handleActionResolve {α : Type} (action : String) (result : Option α)
    (updater : α → Chapter → Chapter) (st : ChapterViewState) :
    ChapterViewState :=
  let st1 := match result with
    | some r => { st with chapter := updater r st.chapter }
    | none => st
  { st1 with
    isLoading := setLoading st1.isLoading action false
    modal := none
    focusedIdea := "" }

/-- `handleGenerateExercises` resolved: `generateChapterExercises` always
resolves to an object `\x7b exercises: [...] \x7d` (its catch path returns
`\x7b exercises: [] \x7d`), and a JS object is truthy even when its
exercises array is empty, so the result always passes the `if (result)`
guard: it is passed as `some data`.  The updater appends
`\x7b id: randomUUID(), focusedIdea: idea, exercises: data.exercises \x7d`
to the chapter's exerciseSets; `newId` stands for the minted uuid. -/
def handleGenerateExercisesResolve (newId idea : String)
    (dataExercises : List Exercise) (st : ChapterViewState) :
    ChapterViewState :=
  handleActionResolve "exercises" (some dataExercises)
    (fun exs ch =>
      { ch with exerciseSets := ch.exerciseSets ++ [⟨newId, some idea, exs⟩] })
    st

/-- `handleSolverSubmit` resolved: `solveWithAI` always resolves to a
string (its catch path returns an error string), and at `if (result)` only
the empty string is falsy.  The appended SolverSet's userInput is
`\x7b type: solverImage ? 'image' : 'text',
content: solverImage || solverText \x7d`; after `handleAction` finishes,
the `.then` clears the solver image and text buffers unconditionally.
`solverInputOf` is the userInput expression built at submission time. -/
def solverInputOf (st : ChapterViewState) : UserInput :=
  match st.solverImage with
  | some img => ⟨UserInputType.image, img⟩
  | none => ⟨UserInputType.text, st.solverText⟩

def handleSolverSubmitResolve (newId solution : String)
    (st : ChapterViewState) : ChapterViewState :=
  let result : Option String := if solution = "" then none else some solution
  let st1 := handleActionResolve "solver" result
    (fun sol ch =>
      { ch with solverSets := ch.solverSets ++
        [(⟨newId, solverInputOf st, sol⟩ : SolverSet)] })
    st
  { st1 with solverImage := none, solverText := "" }

/-- The `useState` cells of OutlineView relevant to exam generation. -/
structure OutlineViewState where
  outline : Option Outline
  isLoading : String → Bool
  isModalOpen : Bool
  focusedIdea : String

/-- `handleGenerateExam` resolved: the guard is `if (data.exercises)`, so
`dataExercises = none` models a parsed result without an exercises field
(undefined, falsy) while `some exs` models an array — which in JS is truthy
even when empty (the failure value `\x7b exercises: [] \x7d` therefore
passes the guard).  On a truthy field the new set is appended to
`prev.examSets`; the busy flag, modal and focused idea are then reset
unconditionally. -/
def handleGenerateExamResolve (newId idea : String)
    (dataExercises : Option (List Exercise)) (st : OutlineViewState) :
    OutlineViewState :=
  let st1 := match dataExercises with
    | some exs =>
      { st with outline :=
          match st.outline with
          | some prev =>
            some { prev with examSets :=
              prev.examSets ++ [(⟨newId, some idea, exs⟩ : ExerciseSet)] }
          | none => none }
    | none => st
  { st1 with
    isLoading := setLoading st1.isLoading "exam" false
    isModalOpen := false
    focusedIdea := "" }

/-- The `useState` cells of SectionView relevant to image generation;
`sect` is the `section` prop (the word is a Lean keyword). -/
structure SectionViewState where
  sect : Section
  isImageLoading : Bool
  focusedIdea : String

/-- `handleGenerateImage` resolved: `generateImage` yields a base64 string
or null; `none` models a falsy result (null or empty string) at
`if (base64Image)`.  On success a GeneratedImage is appended with the
data-URL prefix and prompt `idea || section.title` (the empty idea string
is falsy, so the title is used); the busy flag and idea are then reset. -/
def handleGenerateImageResolve (newId idea : String)
    (base64Image : Option String) (st : SectionViewState) :
    SectionViewState :=
  let st1 := match base64Image with
    | some b64 =>
      { st with sect :=
          { st.sect with images := st.sect.images ++
            [(⟨newId, "data:image/jpeg;base64," ++ b64,
              if idea = "" then st.sect.title else idea⟩ : GeneratedImage)] } }
    | none => st
  { st1 with isImageLoading := false, focusedIdea := "" }

/- ================================================================
   App-level session state (App.tsx).
   ================================================================ -/

/-- The `useState` cells of App. -/
structure AppState where
  apiKey : Option String
  outline : Option Outline
  topic : String
  numChapters : Nat
  language : Language
  isLoading : Bool
  error : Option String

/-- The inline error message set by `handleGenerateOutline` on a null
result. -/
def outlineErrorMessage : String :=
  "Failed to generate outline. Please check your API key and try again."

/-- The continuation of `handleGenerateOutline` after
`await generateOutline(...)` resolves (the call site is only reached with a
present apiKey and non-empty topic, with `isLoading` true and `error`
already cleared).  On a truthy result the outline is stored; on null the
error message is set and the outline left alone; `finally` clears the
loading flag in both cases. -/
def handleGenerateOutlineResolve (result : Option Outline) (st : AppState) :
    AppState :=
  match result with
  | some r => { st with outline := some r, isLoading := false }
  | none => { st with error := some outlineErrorMessage, isLoading := false }

/-- `handleReset`: `setOutline(null); setTopic(''); setError(null)`. -/
def handleReset (st : AppState) : AppState :=
  { st with outline := none, topic := "", error := none }

/- ================================================================
   JSON repair and parsing (tryParseJson in the service layer).
   Character constants are written with Char.ofNat: 96 is the backtick,
   34 the double quote, 92 the backslash, 123/125 the curly braces.
   ================================================================ -/

def btick : Char := Char.ofNat 96

def quoteChar : Char := Char.ofNat 34

def backslashChar : Char := Char.ofNat 92

def lbrace : Char := Char.ofNat 123

def rbrace : Char := Char.ofNat 125

/-- The JS whitespace class shared by `String.prototype.trim` and the
regex `\s`: space, tab, LF, VT, FF, CR, NBSP, LINE/PARAGRAPH SEPARATOR and
ZWNBSP (the remaining Unicode Zs members are not modelled; none of the
claims involve them). -/
def jsWs (c : Char) : Bool :=
  c = ' ' || c = Char.ofNat 9 || c = Char.ofNat 10 || c = Char.ofNat 11 ||
  c = Char.ofNat 12 || c = Char.ofNat 13 || c = Char.ofNat 160 ||
  c = Char.ofNat 0x2028 || c = Char.ofNat 0x2029 || c = Char.ofNat 0xFEFF

/-- Step 1 of tryParseJson's cleanup:
`.replace(/板json|板/g, '')` where 板 stands for a run of three backticks
(the literal cannot appear in this comment).  The regex scans left to
right, preferring the longer alternative at each position, and resumes
after each match.  The fuel decreases once per consumed character, so the
wrapper's `length` fuel is never exhausted. -/
def startsWithFence : List Char → Bool
  | a :: b :: c :: _ => if a = btick ∧ b = btick ∧ c = btick then true else false
  | _ => false

def startsWithJson : List Char → Bool
  | a :: b :: c :: d :: _ =>
    if a = 'j' ∧ b = 's' ∧ c = 'o' ∧ d = 'n' then true else false
  | _ => false

def stripFencesAux : Nat → List Char → List Char
  | 0, l => l
  | _ + 1, [] => []
  | fuel + 1, c :: rest =>
    if startsWithFence (c :: rest) then
      if startsWithJson (rest.drop 2) then stripFencesAux fuel (rest.drop 6)
      else stripFencesAux fuel (rest.drop 2)
    else c :: stripFencesAux fuel rest

def stripFences (l : List Char) : List Char :=
  stripFencesAux l.length l

/-- Step 2: `.trim()`. -/
def jsTrim (l : List Char) : List Char :=
  ((l.dropWhile jsWs).reverse.dropWhile jsWs).reverse

/-- Step 3: `.replace(/,(\s*[\x7d\x5d])/g, '$1')` — drop a comma followed
by optional whitespace and a closing brace or bracket, keeping the
whitespace and the bracket; scanning resumes after each match.  The fuel
decreases once per consumed character (a match consumes the comma, the
whitespace span and the bracket), so the wrapper's `length` fuel is never
exhausted. -/
def stripTrailingCommasAux : Nat → List Char → List Char
  | 0, l => l
  | _ + 1, [] => []
  | fuel + 1, c :: rest =>
    if c = ',' then
      match rest.dropWhile jsWs with
      | b :: tail =>
        if b = rbrace ∨ b = ']' then
          rest.takeWhile jsWs ++ b :: stripTrailingCommasAux fuel tail
        else
          c :: stripTrailingCommasAux fuel rest
      | [] => c :: stripTrailingCommasAux fuel rest
    else c :: stripTrailingCommasAux fuel rest

def stripTrailingCommas (l : List Char) : List Char :=
  stripTrailingCommasAux l.length l

/-- The full cleanup pass of tryParseJson, on character lists. -/
def cleanedChars (l : List Char) : List Char :=
  stripTrailingCommas (jsTrim (stripFences l))

/-- The full cleanup pass of tryParseJson, on strings. -/
def cleanedString (s : String) : String :=
  String.mk (cleanedChars s.data)

/-- JSON values as produced by `JSON.parse`.  Numbers keep their source
lexeme instead of being converted to a float: no claim inspects a numeric
value, and floating point is outside the embedding. -/
inductive Json where
  | null
  | bool (b : Bool)
  | num (raw : String)
  | str (s : String)
  | arr (elems : List Json)
  | obj (fields : List (String × Json))

/-- JSON whitespace (RFC 8259): space, tab, LF, CR. -/
def jsonWsChar (c : Char) : Bool :=
  c = ' ' || c = Char.ofNat 9 || c = Char.ofNat 10 || c = Char.ofNat 13

def skipWs (l : List Char) : List Char :=
  l.dropWhile jsonWsChar

def hexVal (c : Char) : Option Nat :=
  if c.isDigit then some (c.toNat - 48)
  else if 'a' ≤ c ∧ c ≤ 'f' then some (c.toNat - 87)
  else if 'A' ≤ c ∧ c ≤ 'F' then some (c.toNat - 55)
  else none

/-- Single-character JSON string escapes. -/
def escChar (e : Char) : Option Char :=
  if e = quoteChar then some quoteChar
  else if e = backslashChar then some backslashChar
  else if e = '/' then some '/'
  else if e = 'b' then some (Char.ofNat 8)
  else if e = 'f' then some (Char.ofNat 12)
  else if e = 'n' then some (Char.ofNat 10)
  else if e = 'r' then some (Char.ofNat 13)
  else if e = 't' then some (Char.ofNat 9)
  else none

/-- Body of a JSON string after the opening quote; returns the decoded
content and the input following the closing quote.  Raw control
characters below 0x20 are invalid.  `\u` escapes decode the code unit
directly (a lone surrogate, invalid as a Char, falls back to Char 0 —
no claim involves surrogates).  The fuel is consumed once per consumed
character, so `length + 1` always suffices. -/
def parseStringBody : Nat → List Char → Option (List Char × List Char)
  | 0, _ => none
  | _ + 1, [] => none
  | fuel + 1, c :: rest =>
    if c = quoteChar then some ([], rest)
    else if c = backslashChar then
      match rest with
      | [] => none
      | e :: rest2 =>
        if e = 'u' then
          match rest2 with
          | h1 :: h2 :: h3 :: h4 :: rest3 =>
            match hexVal h1, hexVal h2, hexVal h3, hexVal h4 with
            | some a, some b, some c3, some d =>
              (parseStringBody fuel rest3).map
                (fun p => (Char.ofNat (4096 * a + 256 * b + 16 * c3 + d) :: p.1, p.2))
            | _, _, _, _ => none
          | _ => none
        else
          match escChar e with
          | some d => (parseStringBody fuel rest2).map (fun p => (d :: p.1, p.2))
          | none => none
    else if c.toNat < 32 then none
    else (parseStringBody fuel rest).map (fun p => (c :: p.1, p.2))

def takeDigits (l : List Char) : List Char × List Char :=
  (l.takeWhile Char.isDigit, l.dropWhile Char.isDigit)

/-- Optional fraction part `.digits+`; consumed only when complete. -/
def parseFracPart (l : List Char) : List Char × List Char :=
  match l with
  | c :: rest =>
    if c = '.' then
      match takeDigits rest with
      | ([], _) => ([], l)
      | (ds, rest2) => (c :: ds, rest2)
    else ([], l)
  | [] => ([], [])

/-- Optional exponent part `[eE][+-]?digits+`; consumed only when
complete. -/
def parseExpPart (l : List Char) : List Char × List Char :=
  match l with
  | c :: rest =>
    if c = 'e' ∨ c = 'E' then
      let (sign, rest1) :=
        match rest with
        | s :: r => if s = '+' ∨ s = '-' then ([s], r) else (([] : List Char), rest)
        | [] => ([], [])
      match takeDigits rest1 with
      | ([], _) => ([], l)
      | (ds, rest2) => (c :: (sign ++ ds), rest2)
    else ([], l)
  | [] => ([], [])

/-- JSON number: `-? (0 | [1-9][0-9]*) frac? exp?`; returns the lexeme and
the remaining input. -/
def parseNumber (l : List Char) : Option (List Char × List Char) :=
  let (neg, l1) :=
    match l with
    | c :: rest => if c = '-' then (([c] : List Char), rest) else ([], l)
    | [] => ([], [])
  match l1 with
  | [] => none
  | c :: rest =>
    if c = '0' then
      let (f, l2) := parseFracPart rest
      let (e, l3) := parseExpPart l2
      some (neg ++ c :: (f ++ e), l3)
    else if c.isDigit then
      let (ds, restd) := takeDigits rest
      let (f, l2) := parseFracPart restd
      let (e, l3) := parseExpPart l2
      some (neg ++ c :: (ds ++ f ++ e), l3)
    else none

/- Recursive-descent JSON value/array/object parsers, mirroring
`JSON.parse`.  Every recursive call decrements the fuel and every cycle
through the mutual block consumes at least one input character, so the
generous fuel used by `jsonParse` (four per character) cannot run out. -/
mutual

def parseValue : Nat → List Char → Option (Json × List Char)
  | 0, _ => none
  | fuel + 1, l =>
    match l with
    | [] => none
    | c :: rest =>
      if c = lbrace then parseObjBody fuel (skipWs rest)
      else if c = '[' then parseArrBody fuel (skipWs rest)
      else if c = quoteChar then
        match parseStringBody (rest.length + 1) rest with
        | some (content, rest2) => some (Json.str (String.mk content), rest2)
        | none => none
      else if c = 't' then
        match rest with
        | 'r' :: 'u' :: 'e' :: rest2 => some (Json.bool true, rest2)
        | _ => none
      else if c = 'f' then
        match rest with
        | 'a' :: 'l' :: 's' :: 'e' :: rest2 => some (Json.bool false, rest2)
        | _ => none
      else if c = 'n' then
        match rest with
        | 'u' :: 'l' :: 'l' :: rest2 => some (Json.null, rest2)
        | _ => none
      else
        match parseNumber l with
        | some (raw, rest2) => some (Json.num (String.mk raw), rest2)
        | none => none

def parseArrBody : Nat → List Char → Option (Json × List Char)
  | 0, _ => none
  | fuel + 1, l =>
    match l with
    | c :: _ =>
      if c = ']' then some (Json.arr [], l.tail)
      else
        match parseElements fuel l with
        | some (elems, rest2) => some (Json.arr elems, rest2)
        | none => none
    | [] => none

def parseElements : Nat → List Char → Option (List Json × List Char)
  | 0, _ => none
  | fuel + 1, l =>
    match parseValue fuel (skipWs l) with
    | some (v, rest) =>
      match skipWs rest with
      | c :: rest2 =>
        if c = ',' then
          match parseElements fuel rest2 with
          | some (vs, rest3) => some (v :: vs, rest3)
          | none => none
        else if c = ']' then some ([v], rest2)
        else none
      | [] => none
    | none => none

def parseObjBody : Nat → List Char → Option (Json × List Char)
  | 0, _ => none
  | fuel + 1, l =>
    match l with
    | c :: _ =>
      if c = rbrace then some (Json.obj [], l.tail)
      else
        match parseMembers fuel l with
        | some (fields, rest2) => some (Json.obj fields, rest2)
        | none => none
    | [] => none

def parseMembers : Nat → List Char → Option (List (String × Json) × List Char)
  | 0, _ => none
  | fuel + 1, l =>
    match skipWs l with
    | c :: rest =>
      if c = quoteChar then
        match parseStringBody (rest.length + 1) rest with
        | some (key, rest2) =>
          match skipWs rest2 with
          | c2 :: rest3 =>
            if c2 = ':' then
              match parseValue fuel (skipWs rest3) with
              | some (v, rest4) =>
                match skipWs rest4 with
                | c3 :: rest5 =>
                  if c3 = ',' then
                    match parseMembers fuel rest5 with
                    | some (fs, rest6) => some ((String.mk key, v) :: fs, rest6)
                    | none => none
                  else if c3 = rbrace then some ([(String.mk key, v)], rest5)
                  else none
                | [] => none
              | none => none
            else none
          | [] => none
        | none => none
      else none
    | [] => none

end

/-- `JSON.parse`: optional surrounding whitespace around a single value;
`none` models a thrown SyntaxError. -/
def jsonParse (s : String) : Option Json :=
  match parseValue (4 * s.data.length + 16) (skipWs s.data) with
  | some (v, rest) => if skipWs rest = [] then some v else none
  | none => none

/-- JS property access on a parsed object: duplicate keys are kept in
generation order by the parser, and as in `JSON.parse` the last
occurrence wins. -/
def jsLookupField (fields : List (String × Json)) (key : String) : Option Json :=
  match fields with
  | [] => none
  | (k, v) :: rest =>
    match jsLookupField rest key with
    | some v2 => some v2
    | none => if k = key then some v else none

/-- `tryParseJson` from the service layer: run the cleanup pass, then
`JSON.parse`; on a parse error return the caller-supplied fallback. -/
def tryParseJson (jsonString : String) (fallback : Json) : Json :=
  match jsonParse (cleanedString jsonString) with
  | some v => v
  | none => fallback

/-- The fallback object `\x7b topics: [] \x7d` passed by
extractTopicsFromText. -/
def topicsFallback : Json :=
  Json.obj [("topics", Json.arr [])]

/-- `extractTopicsFromText` from the service layer, as a function of the
external response text: `result = tryParseJson(text, \x7b topics: [] \x7d);
return result.topics`.  JS semantics of the property access: on an object,
the field's value, or undefined (`none`) when absent; on null, a TypeError
— caught by the surrounding try/catch, which returns `[]`; on any other
value (string, number, boolean, array), undefined (`none`).  A rejected
network call is likewise caught and yields `[]`; the embedding takes the
response text as given, so that path coincides with the null case. -/
def extractTopicsFromText (responseText : String) : Option Json :=
  match tryParseJson responseText topicsFallback with
  | Json.obj fields => jsLookupField fields "topics"
  | Json.null => some (Json.arr [])
  | _ => none

/- Syntactic conditions under which the cleanup pass is the identity. -/

/-- Whether the text contains a run of three consecutive backticks
(the trigger of the fence-stripping regex). -/
def hasThreeBackticks : List Char → Bool
  | [] => false
  | c :: rest => startsWithFence (c :: rest) || hasThreeBackticks rest

/-- Whether the comma-whitespace-closing-bracket regex matches at the head
of the text. -/
def commaPatternAt : List Char → Bool
  | c :: rest =>
    if c = ',' then
      match rest.dropWhile jsWs with
      | b :: _ => if b = rbrace ∨ b = ']' then true else false
      | [] => false
    else false
  | [] => false

/-- Whether the comma-whitespace-closing-bracket regex matches anywhere in
the text. -/
def hasTrailingCommaPattern : List Char → Bool
  | [] => false
  | c :: rest => commaPatternAt (c :: rest) || hasTrailingCommaPattern rest

/- Concrete sample component states used by witnesses and counterexamples. -/

def sampleChapterState : ChapterViewState :=
  ⟨sampleChapter1, fun _ => false, some "exercises", "chain rule",
    "problem text", none⟩

def sampleOutlineState : OutlineViewState :=
  ⟨some sampleOutline, fun _ => false, true, "focus"⟩

def sampleSectionState : SectionViewState :=
  ⟨sampleSection1, true, "idea"⟩

def sampleAppState : AppState :=
  ⟨some "key", some sampleOutline, "Calculus", 5, Language.English, true, none⟩

/- ================================================================
   Helper lemmas about the id-dispatching map and filter
   ================================================================ -/

theorem map_eq_self_of_fixed {α : Type} (f : α → α) (l : List α)
    (h : ∀ a ∈ l, f a = a) : l.map f = l := by
  induction l with
  | nil => rfl
  | cons a t ih =>
    simp only [List.map_cons, List.cons.injEq]
    exact ⟨h a (List.mem_cons_self a t), ih fun b hb => h b (List.mem_cons_of_mem a hb)⟩

theorem map_update_id {α : Type} (idOf : α → String) (X : String)
    (f : α → α) (l : List α) (h : ∀ a ∈ l, idOf a ≠ X) :
    (l.map fun a => if idOf a = X then f a else a) = l := by
  apply map_eq_self_of_fixed
  intro a ha
  simp [h a ha]

theorem filter_bne_eq_self {α : Type} (idOf : α → String) (X : String)
    (l : List α) (h : ∀ a ∈ l, idOf a ≠ X) :
    (l.filter fun a => idOf a != X) = l := by
  apply List.filter_eq_self.mpr
  intro a ha
  exact bne_iff_ne.mpr (h a ha)

/-- C1: for a course tree whose chapters split as `pre ++ [c] ++ post` with
`c` the unique chapter carrying id `X`, `updateChapter X f` replaces exactly
`c` by `f c`; the sibling chapter lists `pre` and `post` (hence every other
chapter's sections, exercise sets and solver sets) and the outline's title
and exam sets are exactly the input's. -/
theorem updateChapter_replaces_only_target (o : Outline) (X : String)
    (f : Chapter → Chapter) (pre post : List Chapter) (c : Chapter)
    (hsplit : o.chapters = pre ++ c :: post) (hc : c.id = X)
    (hpre : ∀ d ∈ pre, d.id ≠ X) (hpost : ∀ d ∈ post, d.id ≠ X) :
    updateChapter X f (some o) = some { o with chapters := pre ++ f c :: post } := by
  have hdef : updateChapter X f (some o) =
      some { o with chapters := o.chapters.map fun d =>
        if d.id = X then f d else d } := rfl
  rw [hdef, hsplit]
  simp only [List.map_append, List.map_cons, Option.some.injEq]
  rw [map_update_id Chapter.id X f pre hpre, map_update_id Chapter.id X f post hpost,
    if_pos hc]

/-- Witness for C1 at a concrete two-chapter outline. -/
theorem updateChapter_replaces_only_target_witness :
    updateChapter "c1" sampleChapterUpdater (some sampleOutline) =
      some { sampleOutline with
        chapters := [sampleChapterUpdater sampleChapter1, sampleChapter2] } :=
  updateChapter_replaces_only_target sampleOutline "c1" sampleChapterUpdater
    [] [sampleChapter2] sampleChapter1 rfl rfl (by simp) (by decide)

/-- C2: when no chapter carries id `X`, both `updateChapter X f` and
`updateSection X sid g` leave the tree structurally identical to the input;
likewise `updateSection` is a no-op when no section (in any chapter)
carries id `sid`. -/
theorem update_noop_when_id_absent (o : Outline) (X sid : String)
    (f : Chapter → Chapter) (g : Section → Section) :
    ((∀ c ∈ o.chapters, c.id ≠ X) →
        updateChapter X f (some o) = some o ∧
        updateSection X sid g (some o) = some o) ∧
    ((∀ c ∈ o.chapters, ∀ s ∈ c.sections, s.id ≠ sid) →
        updateSection X sid g (some o) = some o) := by
  have hdef1 : updateChapter X f (some o) =
      some { o with chapters := o.chapters.map fun d =>
        if d.id = X then f d else d } := rfl
  have hdef2 : updateSection X sid g (some o) =
      some { o with chapters := o.chapters.map fun d =>
        if d.id = X then
          { d with sections := d.sections.map fun s =>
              if s.id = sid then g s else s }
        else d } := rfl
  constructor
  · intro h
    constructor
    · rw [hdef1, map_update_id Chapter.id X f o.chapters h]
    · rw [hdef2, map_update_id Chapter.id X _ o.chapters h]
  · intro h
    rw [hdef2]
    have hmap : (o.chapters.map fun d =>
        if d.id = X then
          { d with sections := d.sections.map fun s =>
              if s.id = sid then g s else s }
        else d) = o.chapters := by
      apply map_eq_self_of_fixed
      intro c hc
      by_cases hx : c.id = X
      · rw [if_pos hx, map_update_id Section.id sid g c.sections (h c hc)]
      · rw [if_neg hx]
    rw [hmap]

/-- Witness for C2 at a concrete outline with an absent chapter id and an
absent section id. -/
theorem update_noop_when_id_absent_witness :
    (updateChapter "zz" sampleChapterUpdater (some sampleOutline) = some sampleOutline ∧
      updateSection "zz" "s9" sampleSectionUpdater (some sampleOutline) = some sampleOutline) ∧
    updateSection "c1" "s9" sampleSectionUpdater (some sampleOutline) = some sampleOutline :=
  ⟨(update_noop_when_id_absent sampleOutline "zz" "s9"
      sampleChapterUpdater sampleSectionUpdater).1 (by decide),
   (update_noop_when_id_absent sampleOutline "c1" "s9"
      sampleChapterUpdater sampleSectionUpdater).2 (by decide)⟩

/-- C3 counterexample: with two sets sharing id "a", remove-by-id deletes
both of them (the filter drops every match), so the claim that it never
removes more than one element even with duplicate ids fails. -/
theorem remove_by_id_duplicates_counterexample :
    removeExerciseSetById "a" [sampleSetA, sampleSetA] = [] ∧
    [sampleSetA, sampleSetA].length = 2 ∧
    ¬ ([sampleSetA, sampleSetA].length ≤
        (removeExerciseSetById "a" [sampleSetA, sampleSetA]).length + 1) := by
  decide

/-- C3 as amended: remove-by-id removes every element whose id matches.
When the id is absent it is a no-op, and when exactly one element matches
(the situation the unique-id tree invariant guarantees) it removes exactly
that element, preserving the others in order; the same holds for solver
sets. -/
theorem remove_by_id_spec (i : String) (l pre post : List ExerciseSet)
    (x : ExerciseSet) (l2 pre2 post2 : List SolverSet) (y : SolverSet) :
    ((∀ s ∈ l, s.id ≠ i) → removeExerciseSetById i l = l) ∧
    (l = pre ++ x :: post → x.id = i → (∀ s ∈ pre, s.id ≠ i) →
      (∀ s ∈ post, s.id ≠ i) → removeExerciseSetById i l = pre ++ post) ∧
    ((∀ s ∈ l2, s.id ≠ i) → removeSolverSetById i l2 = l2) ∧
    (l2 = pre2 ++ y :: post2 → y.id = i → (∀ s ∈ pre2, s.id ≠ i) →
      (∀ s ∈ post2, s.id ≠ i) → removeSolverSetById i l2 = pre2 ++ post2) := by
  refine ⟨fun h => filter_bne_eq_self ExerciseSet.id i l h,
    fun hsplit hx hpre hpost => ?_,
    fun h => filter_bne_eq_self SolverSet.id i l2 h,
    fun hsplit hx hpre hpost => ?_⟩
  · unfold removeExerciseSetById
    rw [hsplit, List.filter_append, List.filter_cons]
    have : (x.id != i) = false := by simp [hx]
    rw [this]
    simp only [Bool.false_eq_true, if_false]
    rw [filter_bne_eq_self ExerciseSet.id i pre hpre,
      filter_bne_eq_self ExerciseSet.id i post hpost]
  · unfold removeSolverSetById
    rw [hsplit, List.filter_append, List.filter_cons]
    have : (y.id != i) = false := by simp [hx]
    rw [this]
    simp only [Bool.false_eq_true, if_false]
    rw [filter_bne_eq_self SolverSet.id i pre2 hpre,
      filter_bne_eq_self SolverSet.id i post2 hpost]

/-- Witness for the amended C3 at concrete absent-id and present-id cases. -/
theorem remove_by_id_spec_witness :
    removeExerciseSetById "z" [sampleSetA, sampleSetB] = [sampleSetA, sampleSetB] ∧
    removeExerciseSetById "b" [sampleSetA, sampleSetB, sampleSetC] =
      [sampleSetA] ++ [sampleSetC] ∧
    removeSolverSetById "z" [sampleSolverP] = [sampleSolverP] ∧
    removeSolverSetById "p" [sampleSolverP, sampleSolverQ] = [] ++ [sampleSolverQ] :=
  ⟨(remove_by_id_spec "z" [sampleSetA, sampleSetB] [] [] sampleSetA
      [sampleSolverP] [] [] sampleSolverP).1 (by decide),
   (remove_by_id_spec "b" [sampleSetA, sampleSetB, sampleSetC] [sampleSetA]
      [sampleSetC] sampleSetB [] [] [] sampleSolverP).2.1 rfl rfl
      (by decide) (by decide),
   (remove_by_id_spec "z" [] [] [] sampleSetA [sampleSolverP] [] []
      sampleSolverP).2.2.1 (by decide),
   (remove_by_id_spec "p" [] [] [] sampleSetA [sampleSolverP, sampleSolverQ]
      [] [sampleSolverQ] sampleSolverP).2.2.2 rfl rfl (by decide) (by decide)⟩

/-- C4 counterexample: when the external call resolves with the failure
value (an object whose exercises array is empty), the chapter's
exerciseSets and the course's examSets do NOT stay unchanged: a new
(empty) set is appended, because an object — and an empty array — are
truthy at the `if (result)` / `if (data.exercises)` guards. -/
theorem empty_exercises_still_appends_counterexample :
    ¬ ((handleGenerateExercisesResolve "n1" "" [] sampleChapterState).chapter.exerciseSets
        = sampleChapterState.chapter.exerciseSets) ∧
    ¬ ((handleGenerateExamResolve "n2" "" (some []) sampleOutlineState).outline
        = sampleOutlineState.outline) := by
  decide

/-- C4 as amended: an `\x7b exercises: [] \x7d` result appends a new set
whose exercises list is empty (the sequence grows by exactly one); nothing
is appended only when the exam result's exercises field is absent
(undefined). -/
theorem empty_result_append_behavior (st : ChapterViewState)
    (ost : OutlineViewState) (newId idea : String) :
    (handleGenerateExercisesResolve newId idea [] st).chapter.exerciseSets
        = st.chapter.exerciseSets ++ [⟨newId, some idea, []⟩] ∧
    (handleGenerateExamResolve newId idea (some []) ost).outline
        = ost.outline.map (fun prev =>
            { prev with examSets := prev.examSets ++ [⟨newId, some idea, []⟩] }) ∧
    (handleGenerateExamResolve newId idea none ost).outline = ost.outline := by
  refine ⟨rfl, ?_, rfl⟩
  obtain ⟨o?, il, im, fi⟩ := ost
  cases o? <;> rfl

/-- C5 counterexample: a task resolving with an empty/failure result does
NOT retain the transient input state: the focused-idea text is reset to
empty by `handleAction` and the solver text buffer is cleared by
`handleSolverSubmit`'s `.then`, even when nothing was generated. -/
theorem transient_state_cleared_counterexample :
    ¬ ((handleGenerateExercisesResolve "n1" "x" [] sampleChapterState).focusedIdea
        = sampleChapterState.focusedIdea) ∧
    ¬ ((handleSolverSubmitResolve "n2" "" sampleChapterState).solverText
        = sampleChapterState.solverText) := by
  decide

/-- C5 as amended: on a falsy (null/empty-string) result the task returns
to idle with the busy flag cleared, the modal closed and no mutation
applied, but the transient input state is cleared rather than retained:
the focused-idea text is reset to empty and a solver submission clears the
solver text and image buffers regardless of outcome; moreover an
object-shaped empty result (empty exercises array) still applies a
mutation, appending an empty set. -/
theorem failure_resolution_behavior {α : Type} (st : ChapterViewState)
    (action newId idea : String) (updater : α → Chapter → Chapter) :
    ((handleActionResolve action (none : Option α) updater st).chapter = st.chapter ∧
     (handleActionResolve action (none : Option α) updater st).isLoading action = false ∧
     (handleActionResolve action (none : Option α) updater st).focusedIdea = "" ∧
     (handleActionResolve action (none : Option α) updater st).modal = none) ∧
    ((handleSolverSubmitResolve newId "" st).chapter = st.chapter ∧
     (handleSolverSubmitResolve newId "" st).isLoading "solver" = false ∧
     (handleSolverSubmitResolve newId "" st).solverText = "" ∧
     (handleSolverSubmitResolve newId "" st).solverImage = none ∧
     (handleSolverSubmitResolve newId "" st).focusedIdea = "") ∧
    (handleGenerateExercisesResolve newId idea [] st).chapter.exerciseSets
        = st.chapter.exerciseSets ++ [⟨newId, some idea, []⟩] := by
  refine ⟨⟨rfl, ?_, rfl, rfl⟩, ⟨rfl, ?_, rfl, rfl, rfl⟩, rfl⟩
  · simp [handleActionResolve, setLoading]
  · simp [handleSolverSubmitResolve, handleActionResolve, setLoading]

/-- C7: when the outline generation call resolves with null, the Course
value is left exactly as it was (absent or unchanged), the loading flag is
cleared, and the persistent inline error message is set. -/
theorem outline_null_result_behavior (st : AppState) :
    (handleGenerateOutlineResolve none st).outline = st.outline ∧
    (handleGenerateOutlineResolve none st).isLoading = false ∧
    (handleGenerateOutlineResolve none st).error = some outlineErrorMessage :=
  ⟨rfl, rfl, rfl⟩

/-- C8: every successful append — of a chapter exercise set, a solver set,
an exam set, or a generated image — yields exactly the old sequence with
the new element at the end: the length grows by one and the prefix of the
original length is unchanged (no reorder, no removal). -/
theorem append_preserves_existing (st : ChapterViewState)
    (ost : OutlineViewState) (sst : SectionViewState) (o : Outline)
    (newId idea b64 sol : String) (exs : List Exercise)
    (hsol : sol ≠ "") (hout : ost.outline = some o) :
    ((handleGenerateExercisesResolve newId idea exs st).chapter.exerciseSets
        = st.chapter.exerciseSets ++ [⟨newId, some idea, exs⟩] ∧
     (handleGenerateExercisesResolve newId idea exs st).chapter.exerciseSets.length
        = st.chapter.exerciseSets.length + 1 ∧
     (handleGenerateExercisesResolve newId idea exs st).chapter.exerciseSets.take
        st.chapter.exerciseSets.length = st.chapter.exerciseSets) ∧
    ((handleSolverSubmitResolve newId sol st).chapter.solverSets
        = st.chapter.solverSets ++ [⟨newId, solverInputOf st, sol⟩] ∧
     (handleSolverSubmitResolve newId sol st).chapter.solverSets.length
        = st.chapter.solverSets.length + 1 ∧
     (handleSolverSubmitResolve newId sol st).chapter.solverSets.take
        st.chapter.solverSets.length = st.chapter.solverSets) ∧
    ((handleGenerateExamResolve newId idea (some exs) ost).outline
        = some { o with examSets := o.examSets ++ [⟨newId, some idea, exs⟩] }) ∧
    ((handleGenerateImageResolve newId idea (some b64) sst).sect.images
        = sst.sect.images ++
          [⟨newId, "data:image/jpeg;base64," ++ b64,
            if idea = "" then sst.sect.title else idea⟩] ∧
     (handleGenerateImageResolve newId idea (some b64) sst).sect.images.length
        = sst.sect.images.length + 1 ∧
     (handleGenerateImageResolve newId idea (some b64) sst).sect.images.take
        sst.sect.images.length = sst.sect.images) := by
  have hex : (handleGenerateExercisesResolve newId idea exs st).chapter.exerciseSets
      = st.chapter.exerciseSets ++ [⟨newId, some idea, exs⟩] := rfl
  have hsolver : (handleSolverSubmitResolve newId sol st).chapter.solverSets
      = st.chapter.solverSets ++ [⟨newId, solverInputOf st, sol⟩] := by
    simp [handleSolverSubmitResolve, handleActionResolve, if_neg hsol]
  have himg : (handleGenerateImageResolve newId idea (some b64) sst).sect.images
      = sst.sect.images ++
        [⟨newId, "data:image/jpeg;base64," ++ b64,
          if idea = "" then sst.sect.title else idea⟩] := rfl
  refine ⟨⟨hex, by rw [hex]; simp, by rw [hex]; simp [List.take_left]⟩,
    ⟨hsolver, by rw [hsolver]; simp, by rw [hsolver]; simp [List.take_left]⟩,
    ?_, ⟨himg, by rw [himg]; simp, by rw [himg]; simp [List.take_left]⟩⟩
  simp [handleGenerateExamResolve, hout]

/-- Witness for C8 at concrete component states. -/
theorem append_preserves_existing_witness :
    (handleGenerateExercisesResolve "n1" "focus" [] sampleChapterState).chapter.exerciseSets
        = sampleChapterState.chapter.exerciseSets ++ [⟨"n1", some "focus", []⟩] ∧
    (handleSolverSubmitResolve "n1" "4" sampleChapterState).chapter.solverSets
        = sampleChapterState.chapter.solverSets ++
          [⟨"n1", solverInputOf sampleChapterState, "4"⟩] ∧
    (handleGenerateExamResolve "n1" "focus" (some []) sampleOutlineState).outline
        = some { sampleOutline with examSets :=
            sampleOutline.examSets ++ [⟨"n1", some "focus", []⟩] } :=
  ⟨((append_preserves_existing sampleChapterState sampleOutlineState
      sampleSectionState sampleOutline "n1" "focus" "b" "4" []
      (by decide) rfl).1).1,
   ((append_preserves_existing sampleChapterState sampleOutlineState
      sampleSectionState sampleOutline "n1" "focus" "b" "4" []
      (by decide) rfl).2.1).1,
   (append_preserves_existing sampleChapterState sampleOutlineState
      sampleSectionState sampleOutline "n1" "focus" "b" "4" []
      (by decide) rfl).2.2.1⟩

/-- C10: reset clears exactly the course tree, the topic and the error;
the selected language, the chapter count, the stored credential (and the
loading flag) keep their previous values. -/
theorem reset_frame (st : AppState) :
    (handleReset st).outline = none ∧ (handleReset st).topic = "" ∧
    (handleReset st).error = none ∧ (handleReset st).language = st.language ∧
    (handleReset st).numChapters = st.numChapters ∧
    (handleReset st).apiKey = st.apiKey ∧
    (handleReset st).isLoading = st.isLoading :=
  ⟨rfl, rfl, rfl, rfl, rfl, rfl, rfl⟩

/- ================================================================
   Identity conditions for the cleanup pass (C6) and the behaviour of
   extractTopicsFromText (C9).
   ================================================================ -/

theorem stripFencesAux_eq_self (fuel : Nat) :
    ∀ l : List Char, hasThreeBackticks l = false → stripFencesAux fuel l = l := by
  induction fuel with
  | zero => intro l _; rfl
  | succ n ih =>
    intro l h
    cases l with
    | nil => rfl
    | cons c rest =>
      rw [hasThreeBackticks] at h
      simp only [Bool.or_eq_false_iff] at h
      rw [stripFencesAux, if_neg (by simp [h.1]), ih rest h.2]

theorem stripFences_eq_self (l : List Char) (h : hasThreeBackticks l = false) :
    stripFences l = l :=
  stripFencesAux_eq_self l.length l h

theorem dropWhile_eq_self_of_head {p : Char → Bool} {l : List Char}
    (h : ∀ c, l.head? = some c → p c = false) : l.dropWhile p = l := by
  cases l with
  | nil => rfl
  | cons a t =>
    rw [List.dropWhile_cons_of_neg]
    simp [h a rfl]

theorem jsTrim_eq_self (l : List Char)
    (hh : ∀ c, l.head? = some c → jsWs c = false)
    (hl : ∀ c, l.getLast? = some c → jsWs c = false) : jsTrim l = l := by
  rw [jsTrim, dropWhile_eq_self_of_head hh,
    dropWhile_eq_self_of_head (fun c hc => hl c (by rwa [← List.head?_reverse])),
    List.reverse_reverse]

theorem stripTrailingCommasAux_eq_self (fuel : Nat) :
    ∀ l : List Char, hasTrailingCommaPattern l = false →
      stripTrailingCommasAux fuel l = l := by
  induction fuel with
  | zero => intro l _; rfl
  | succ n ih =>
    intro l h
    cases l with
    | nil => rfl
    | cons c rest =>
      rw [hasTrailingCommaPattern] at h
      simp only [Bool.or_eq_false_iff] at h
      obtain ⟨hat, hrest⟩ := h
      rw [stripTrailingCommasAux]
      by_cases hc : c = ','
      · rw [commaPatternAt, if_pos hc] at hat
        rw [if_pos hc]
        cases hdw : rest.dropWhile jsWs with
        | nil => rw [ih rest hrest]
        | cons b tail =>
          rw [hdw] at hat
          have hb : ¬ (b = rbrace ∨ b = ']') := by
            intro hbr
            simp [hbr] at hat
          simp only [hb, if_false, ih rest hrest]
      · rw [if_neg hc, ih rest hrest]

theorem stripTrailingCommas_eq_self (l : List Char)
    (h : hasTrailingCommaPattern l = false) : stripTrailingCommas l = l :=
  stripTrailingCommasAux_eq_self l.length l h

/-- C6 counterexample: the array literal holding the two-character string
"comma brace" is already valid JSON, yet the cleanup pass deletes the
comma inside the string literal, so the output is not byte-identical to
the input. -/
theorem cleanup_alters_valid_json_counterexample :
    (jsonParse "[\",\x7d\"]").isSome = true ∧
    cleanedString "[\",\x7d\"]" ≠ "[\",\x7d\"]" := by
  constructor
  · rfl
  · decide

/-- C6 as amended: the cleanup pass yields byte-identical text exactly on
inputs free of the patterns it targets — no run of three backticks, no
comma-whitespace-closing-bracket sequence, and no leading or trailing
whitespace; valid JSON meeting these syntactic conditions passes through
unchanged, but valid JSON carrying such patterns (inside string literals,
or as surrounding whitespace) is altered. -/
theorem cleanup_identity_conditions (l : List Char)
    (hf : hasThreeBackticks l = false)
    (hc : hasTrailingCommaPattern l = false)
    (hh : ∀ c, l.head? = some c → jsWs c = false)
    (hl : ∀ c, l.getLast? = some c → jsWs c = false) :
    cleanedChars l = l := by
  rw [cleanedChars, stripFences_eq_self l hf, jsTrim_eq_self l hh hl,
    stripTrailingCommas_eq_self l hc]

/-- Witness for the amended C6 on a concrete valid JSON text. -/
theorem cleanup_identity_conditions_witness :
    cleanedChars "[1, 2]".data = "[1, 2]".data :=
  cleanup_identity_conditions "[1, 2]".data (by decide) (by decide)
    (by
      intro c hc
      rw [show List.head? "[1, 2]".data = some '[' from rfl] at hc
      cases hc
      decide)
    (by
      intro c hc
      rw [show List.getLast? "[1, 2]".data = some ']' from rfl] at hc
      cases hc
      decide)

/-- C9 counterexample: when the external response is the valid JSON object
without a topics field, the call returns undefined (modelled `none`) — not
a sequence of strings. -/
theorem extract_topics_missing_field_counterexample :
    (jsonParse "\x7b\x7d").isSome = true ∧
    extractTopicsFromText "\x7b\x7d" = none := by
  constructor
  · rfl
  · rfl

/-- C9 as amended: the call never throws — a parse failure yields the
fallback's empty topics array, and the TypeError raised by accessing
`.topics` on null is caught and converted to `[]` — and it returns the
parsed object's topics field (whatever value it holds) when the response
parses to an object; but when that object lacks a topics field the call
returns undefined, a non-list. -/
theorem extract_topics_behavior (s : String) :
    (jsonParse (cleanedString s) = none →
        extractTopicsFromText s = some (Json.arr [])) ∧
    (jsonParse (cleanedString s) = some Json.null →
        extractTopicsFromText s = some (Json.arr [])) ∧
    (∀ fields, jsonParse (cleanedString s) = some (Json.obj fields) →
        extractTopicsFromText s = jsLookupField fields "topics") := by
  refine ⟨fun h => ?_, fun h => ?_, fun fields h => ?_⟩ <;>
    first
    | (simp only [extractTopicsFromText, tryParseJson, h]; rfl)
    | simp only [extractTopicsFromText, tryParseJson, h]

/-- Witness for the amended C9: a non-JSON response yields the empty
array; a response whose object carries a topics array yields that array. -/
theorem extract_topics_behavior_witness :
    extractTopicsFromText "junk" = some (Json.arr []) ∧
    extractTopicsFromText "\x7b\"topics\": [\"Sets\"]\x7d" =
      some (Json.arr [Json.str "Sets"]) :=
  ⟨(extract_topics_behavior "junk").1 rfl,
   (extract_topics_behavior "\x7b\"topics\": [\"Sets\"]\x7d").2.2
      [("topics", Json.arr [Json.str "Sets"])] rfl⟩

end BookGen
